import Mathlib

/-!
Shallow embedding of `src/movie.js`, a small Express + Mongoose movie CRUD
service.  The repository contains two concatenated variants of the same app
(called variant A, lines 1-309, and variant B, lines 310-596).  We embed:

* the express-validator validation chains of both variants (create and update),
* the query-filter construction of the list endpoint,
* the four CRUD handlers of both variants over an explicit list-of-records
  database state,
* variant B's 404 handler and centralized error middleware.

Modelling conventions:

* A write-payload field is `Option String`: `none` means the field is absent
  from the JSON body (undefined), `some s` is the field value after
  express-validator's implicit string conversion (numbers print in decimal,
  null/undefined convert to the empty string).
* The database is a `List MovieRecord`; MongoDB assigns unique `_id`s, which
  theorems assume via a `Nodup` hypothesis where it matters.
* Persistence calls that can fail are driven by an explicit `DbOutcome`
  oracle (`ok` or `fail e`), standing for the resolution of the awaited
  mongoose promise.
* `new RegExp(title, 'i').test s` is embedded by `jsRegexTestCI`, a matcher
  for patterns built from literal characters and the `.` wildcard: on that
  subset (recognised by `simplePattern`) it is exactly the JS semantics —
  case-folded search anywhere in the string, the wildcard matching any
  character except a line terminator — and such patterns are always valid
  regexes.  Patterns using other metacharacters (quantifiers, classes,
  groups, alternation, anchors, escapes) and the SyntaxError path of
  invalid patterns are outside the subset; no theorem quantifies over them.
* Mongoose casts a query filter before running it: `castNumber` asserts the
  value is not `NaN`, so the `NaN` a non-numeric `releaseYear` produces via
  `parseInt` makes `Movie.find` reject with a `CastError` (`castFilter`,
  `findMovies`), which each variant's list handler turns into a 500.
* `new Date().getFullYear()` inside the validator arrays runs once, when the
  route is registered; the captured value is the `maxYear : Int` parameter.
-/

namespace MovieMgmt

/-- A write payload: the five JSON body fields read by the validators, each
either absent (`none`) or present with its stringified value. -/
structure Payload where
  title : Option String
  director : Option String
  releaseYear : Option String
  genre : Option String
  image : Option String
deriving DecidableEq, Repr

/-- A single field-scoped validation violation, as produced by
`errors.array()`: the offending field and the `withMessage` text. -/
structure Violation where
  field : String
  msg : String
deriving DecidableEq, Repr

/-- Express-validator string conversion of a possibly-absent field:
undefined becomes the empty string. -/
def toStr (v : Option String) : String := v.getD ""

/-- The `notEmpty()` validator: the converted value is not the empty string. -/
def notEmpty (v : Option String) : Bool := !(toStr v == "")

/-- The `isLength({min})` validator on the converted value. -/
def isLengthMin (n : Nat) (v : Option String) : Bool :=
  decide (n ≤ (toStr v).length)

/-- Decimal value of a digit list. -/
def digitsVal (acc : Nat) : List Char → Nat
  | [] => acc
  | c :: cs => digitsVal (acc * 10 + (c.toNat - '0'.toNat)) cs

/-- Integer syntax accepted by validator.js `isInt`: optional sign followed
by one or more decimal digits (leading zeroes allowed by default). -/
def strictParseIntCore (cs : List Char) : Option Int :=
  if cs.isEmpty then none
  else if cs.all Char.isDigit then some (Int.ofNat (digitsVal 0 cs)) else none

/-- Parse a whole string as a signed decimal integer; `none` when the string
is not of the form `[+-]?[0-9]+`. -/
def strictParseInt (s : String) : Option Int :=
  match s.data with
  | '+' :: rest => strictParseIntCore rest
  | '-' :: rest => (strictParseIntCore rest).map (fun n => -n)
  | cs => strictParseIntCore cs

/-- The `isInt({min, max})` validator: the converted value is an integer
within the inclusive range. -/
def isIntRange (mn mx : Int) (v : Option String) : Bool :=
  match strictParseInt (toStr v) with
  | none => false
  | some n => decide (mn ≤ n) && decide (n ≤ mx)

/-- The genre enumeration passed to `isIn`. -/
def genres : List String :=
  ["Action", "Comedy", "Drama", "Horror", "Sci-Fi", "Romance", "Other"]

/-- The `isIn(list)` validator on the converted value. -/
def isInList (xs : List String) (v : Option String) : Bool :=
  xs.contains (toStr v)

/-- Match a leading pattern of a character list, returning the remainder
when the list starts with the pattern. -/
def dropLead : List Char → List Char → Option (List Char)
  | [], rest => some rest
  | _ :: _, [] => none
  | p :: ps, c :: cs => if p == c then dropLead ps cs else none

/-- Whether the second list starts with the first. -/
def startsWithList (pat cs : List Char) : Bool := (dropLead pat cs).isSome

/-- Whether `pat` occurs as a contiguous run inside `cs`. -/
def hasSubList (pat : List Char) : List Char → Bool
  | [] => pat.isEmpty
  | c :: cs => startsWithList pat (c :: cs) || hasSubList pat cs

/-- Strip a leading `http://`, `https://` or `ftp://`; a string with any
other explicit scheme is rejected (`none`); a scheme-less string is kept
as is (validator.js does not require a protocol by default). -/
def afterProtocol (s : String) : Option String :=
  match dropLead "http://".data s.data with
  | some r => some (String.mk r)
  | none =>
    match dropLead "https://".data s.data with
    | some r => some (String.mk r)
    | none =>
      match dropLead "ftp://".data s.data with
      | some r => some (String.mk r)
      | none => if hasSubList "://".data s.data then none else some s

/-- Simplified model of the validator.js `isURL` check used by
`body('image').isURL()`: an allowed (or absent) protocol followed by a
nonempty, dot-containing host, with no space anywhere in the string. -/
def isURL (s : String) : Bool :=
  match afterProtocol s with
  | none => false
  | some rest =>
    let host := rest.data.takeWhile fun c => !(c == '/') && !(c == '?') && !(c == '#')
    !(s.data.contains ' ') && !host.isEmpty && host.contains '.'

/-- Variant A title chain (lines 156-158): `notEmpty` then
`isLength({min:1})`; all validators of a chain run, so both can add a
violation for the same payload. -/
def chainTitleA (v : Option String) : List Violation :=
  (if notEmpty v then [] else [⟨"title", "Title is required"⟩])
    ++ (if isLengthMin 1 v then [] else [⟨"title", "Title must be at least 1 character"⟩])

/-- Director chain, identical in both variants: `notEmpty`. -/
def chainDirector (v : Option String) : List Violation :=
  if notEmpty v then [] else [⟨"director", "Director is required"⟩]

/-- Variant A releaseYear chain (lines 163-166): `notEmpty` then
`isInt({min:1888, max:maxYear})`, where `maxYear` is the calendar year
captured when the route was registered. -/
def chainYearA (maxYear : Int) (v : Option String) : List Violation :=
  (if notEmpty v then [] else [⟨"releaseYear", "Release year is required"⟩])
    ++ (if isIntRange 1888 maxYear v then [] else [⟨"releaseYear", "Release year must be valid"⟩])

/-- Variant A genre chain (lines 168-171): `notEmpty` then `isIn(genres)`. -/
def chainGenreA (v : Option String) : List Violation :=
  (if notEmpty v then [] else [⟨"genre", "Genre is required"⟩])
    ++ (if isInList genres v then [] else [⟨"genre", "Invalid genre"⟩])

/-- Image chain, identical in both variants: `optional()` skips the chain
entirely when the field is absent, otherwise `isURL` must pass. -/
def chainImage (v : Option String) : List Violation :=
  match v with
  | none => []
  | some s => if isURL s then [] else [⟨"image", "Image must be a valid URL"⟩]

/-- Variant B title chain (line 455): `notEmpty` only. -/
def chainTitleB (v : Option String) : List Violation :=
  if notEmpty v then [] else [⟨"title", "Title is required"⟩]

/-- Variant B releaseYear chain (lines 457-459): `isInt` only. -/
def chainYearB (maxYear : Int) (v : Option String) : List Violation :=
  if isIntRange 1888 maxYear v then [] else [⟨"releaseYear", "Release year must be valid"⟩]

/-- Variant B genre chain (lines 460-462): `isIn` only. -/
def chainGenreB (v : Option String) : List Violation :=
  if isInList genres v then [] else [⟨"genre", "Invalid genre"⟩]

/-- All violations collected by `validationResult` for variant A's create
route (lines 154-176), in chain order. -/
def createValidationA (maxYear : Int) (p : Payload) : List Violation :=
  chainTitleA p.title ++ chainDirector p.director ++ chainYearA maxYear p.releaseYear
    ++ chainGenreA p.genre ++ chainImage p.image

/-- Variant A's update validators (lines 236-257), a textual copy of its
create validators. -/
def updateValidationA (maxYear : Int) (p : Payload) : List Violation :=
  chainTitleA p.title ++ chainDirector p.director ++ chainYearA maxYear p.releaseYear
    ++ chainGenreA p.genre ++ chainImage p.image

/-- All violations collected for variant B's create route (lines 453-464). -/
def createValidationB (maxYear : Int) (p : Payload) : List Violation :=
  chainTitleB p.title ++ chainDirector p.director ++ chainYearB maxYear p.releaseYear
    ++ chainGenreB p.genre ++ chainImage p.image

/-- Variant B's update validators (lines 523-533), a textual copy of its
create validators. -/
def updateValidationB (maxYear : Int) (p : Payload) : List Violation :=
  chainTitleB p.title ++ chainDirector p.director ++ chainYearB maxYear p.releaseYear
    ++ chainGenreB p.genre ++ chainImage p.image

/-- The fields named by a violation list. -/
def fieldsOf (vs : List Violation) : List String := vs.map Violation.field

/-- A stored movie document: the mongoose schema fields plus the `_id` the
persistence layer assigned. -/
structure MovieRecord where
  id : String
  title : String
  director : String
  releaseYear : Int
  genre : String
  image : Option String
deriving DecidableEq, Repr

/-- The database state: the documents of the `movies` collection.  MongoDB
keeps `_id`s unique; theorems that need this assume it explicitly. -/
abbrev DB := List MovieRecord

/-- Model of the mongoose ObjectId cast: a 24-character hex string or any
12-character string casts; everything else raises a `CastError`. -/
def isHexDigit (c : Char) : Bool :=
  c.isDigit || ('a' ≤ c && c ≤ 'f') || ('A' ≤ c && c ≤ 'F')

/-- Whether a path-parameter id casts to an ObjectId without error. -/
def isValidObjectId (s : String) : Bool :=
  (s.length == 24 && s.data.all isHexDigit) || s.length == 12

/-- The document with the given `_id`, as `findById` and friends locate it. -/
def findById (id : String) (db : DB) : Option MovieRecord :=
  db.find? fun m => m.id == id

/-- Effect of `findByIdAndDelete`: remove the (first, hence with unique ids
the only) document with the given `_id`. -/
def removeById (id : String) : DB → DB
  | [] => []
  | m :: rest => if m.id == id then rest else m :: removeById id rest

/-- Effect of `findByIdAndUpdate` on the located document: replace it. -/
def replaceById (id : String) (nm : MovieRecord) : DB → DB
  | [] => []
  | m :: rest => if m.id == id then nm :: rest else m :: replaceById id nm rest

/-- The query parameters read by the list endpoint; each is absent or a
string (the raw query-string value). -/
structure Query where
  title : Option String
  releaseYear : Option String
  genre : Option String
deriving DecidableEq, Repr

/-- JavaScript truthiness of a possibly-absent query-string value: present
and nonempty. -/
def truthy (v : Option String) : Bool :=
  match v with
  | none => false
  | some s => !(s == "")

/-- JavaScript `parseInt` (base 10): skip leading whitespace, optional
sign, then the longest leading digit run; `none` models `NaN`.  (The `0x`
hex-prefix special case is not modelled; no claim depends on it.) -/
def jsParseInt (s : String) : Option Int :=
  match s.data.dropWhile fun c => c == ' ' || c == '\t' || c == '\n' || c == '\r' with
  | '+' :: rest => jsParseIntCore rest
  | '-' :: rest => (jsParseIntCore rest).map fun n => -n
  | cs => jsParseIntCore cs
where
  jsParseIntCore (cs : List Char) : Option Int :=
    let ds := cs.takeWhile Char.isDigit
    if ds.isEmpty then none else some (Int.ofNat (digitsVal 0 ds))

/-- The JS regex metacharacters other than `.`: a pattern containing none
of these consists of literal characters and the `.` wildcard only. -/
def jsMetaChars : List Char :=
  ['^', '$', '\\', '*', '+', '?', '(', ')', '[', ']', '{', '}', '|']

/-- The pattern subset the title matcher embeds exactly: literal
characters and the `.` wildcard.  Every such pattern is a valid regex (no
SyntaxError), and `new RegExp(pat, 'i').test` on it is `jsRegexTestCI`. -/
def simplePattern (pat : String) : Bool :=
  pat.data.all fun c => !(jsMetaChars.contains c)

/-- A JS line terminator, which the `.` wildcard does not match. -/
def isLineTerm (c : Char) : Bool :=
  c == '\n' || c == '\r' || c == Char.ofNat 0x2028 || c == Char.ofNat 0x2029

/-- One pattern position against one text character: `.` matches anything
but a line terminator, a literal matches itself. -/
def tokenMatches (p c : Char) : Bool :=
  if p == '.' then !(isLineTerm c) else p == c

/-- Match the whole pattern starting at this text position. -/
def matchHere : List Char → List Char → Bool
  | [], _ => true
  | _ :: _, [] => false
  | p :: ps, c :: cs => tokenMatches p c && matchHere ps cs

/-- Unanchored search: the pattern matches starting at some position. -/
def searchFrom (pat : List Char) : List Char → Bool
  | [] => pat.isEmpty
  | c :: cs => matchHere pat (c :: cs) || searchFrom pat cs

/-- Case folding of the `i` flag, character by character. -/
def foldCase (s : String) : List Char :=
  s.data.map Char.toLower

/-- The embedding of `new RegExp(pat, 'i').test s` for patterns of
literal characters and the `.` wildcard: case-folded unanchored search. -/
def jsRegexTestCI (pat s : String) : Bool :=
  searchFrom (foldCase pat) (foldCase s)

/-- The mongo filter object built by the list handlers (lines 106-109 and
408-411).  `releaseYear = some none` is the `NaN` produced by `parseInt`
on a truthy non-numeric value. -/
structure MovieFilter where
  title : Option String
  releaseYear : Option (Option Int)
  genre : Option String
deriving DecidableEq, Repr

/-- Build the filter from the query, field by field as the source does:
a falsy (absent or empty) parameter contributes nothing. -/
def buildFilter (q : Query) : MovieFilter :=
  { title := if truthy q.title then some (toStr q.title) else none
    releaseYear := if truthy q.releaseYear then some (jsParseInt (toStr q.releaseYear)) else none
    genre := if truthy q.genre then some (toStr q.genre) else none }

/-- A single filter field: absent imposes nothing, present must satisfy
the field's matcher. -/
def optMatch (f : Option α) (p : α → Bool) : Bool :=
  match f with
  | none => true
  | some x => p x

/-- A filter as mongoose sees it after casting succeeded: the `NaN` year
case is gone, the cast having rejected instead. -/
structure CastFilter where
  title : Option String
  releaseYear : Option Int
  genre : Option String
deriving DecidableEq, Repr

/-- Whether a document matches the casted filter, per MongoDB semantics:
every present field must match; the title filter is the regex test, the
year and genre filters are equality. -/
def matchesFilter (f : CastFilter) (m : MovieRecord) : Bool :=
  optMatch f.title (fun pat => jsRegexTestCI pat m.title)
  && optMatch f.releaseYear (fun n => m.releaseYear == n)
  && optMatch f.genre (fun g => m.genre == g)

/-- A JavaScript `Error` as the handlers see it: its `message` and its
`stack`. -/
structure JsError where
  message : String
  stack : String
deriving DecidableEq, Repr

/-- Outcome of an awaited persistence call: resolves, or rejects with the
given error. -/
inductive DbOutcome where
  | ok
  | fail (e : JsError)
deriving DecidableEq, Repr

/-- A response body: plain text (`res.send`), a validation-error object, a
document or list of documents, an `error`/`message` object, or a
`message`-only object. -/
inductive RespBody where
  | text (s : String)
  | errorsArr (vs : List Violation)
  | record (m : MovieRecord)
  | records (ms : List MovieRecord)
  | errObj (error : String) (message : Option String)
  | msgObj (message : String)
deriving DecidableEq, Repr

/-- An HTTP response: status code and JSON (or text) body. -/
structure Response where
  status : Nat
  body : RespBody
deriving DecidableEq, Repr

/-- Variant B's centralized error middleware (lines 584-591): log the
stack, answer 500 with `error: 'Server Error'` and the error's message
(`err.message || 'Something went wrong'`, so an empty message falls back).
The second component is the line appended to `log.txt` (timestamp
omitted); only it mentions the stack. -/
def errorMiddlewareB (e : JsError) : Response × String :=
  ( { status := 500
      body := .errObj "Server Error" (some (if e.message == "" then "Something went wrong" else e.message)) }
  , "ERROR: " ++ e.stack )

/-- Fabricate the `CastError` mongoose rejects with when a path id does not
cast to an ObjectId. -/
def castError (id : String) : JsError :=
  { message := "Cast to ObjectId failed for value " ++ id ++ " at path _id for model Movie"
    stack := "CastError: Cast to ObjectId failed for value " ++ id }

/-- The `CastError` mongoose rejects with when the Number cast of a query
value meets `NaN` (`castNumber` runs `assert.ok(!isNaN(val))`). -/
def nanCastError : JsError :=
  { message := "Cast to Number failed for value NaN (type number) at path releaseYear for model Movie"
    stack := "CastError: Cast to Number failed for value NaN (type number) at path releaseYear" }

/-- Mongoose casting of the built filter: a filter holding the `NaN` that
`parseInt` produced rejects with a `CastError`; any other filter passes
through unchanged. -/
def castFilter (f : MovieFilter) : Except JsError CastFilter :=
  match f.releaseYear with
  | none => .ok { title := f.title, releaseYear := none, genre := f.genre }
  | some none => .error nanCastError
  | some (some n) => .ok { title := f.title, releaseYear := some n, genre := f.genre }

/-- `await Movie.find(filter)`: cast the filter (rejecting on `NaN`), then
return the matching documents. -/
def findMovies (f : MovieFilter) (db : DB) : Except JsError (List MovieRecord) :=
  (castFilter f).map fun cf => db.filter (matchesFilter cf)

/-- Variant A list handler (lines 103-116): build the filter, query, 200
with the documents; any rejection (the cast error included) is caught
locally as a bare 500. -/
def getMoviesA (q : Query) (dbo : DbOutcome) (db : DB) : Response :=
  match dbo with
  | .fail _ => { status := 500, body := .errObj "Server Error" none }
  | .ok =>
    match findMovies (buildFilter q) db with
    | .error _ => { status := 500, body := .errObj "Server Error" none }
    | .ok ms => { status := 200, body := .records ms }

/-- Variant B list handler (lines 405-418): same query; a rejection (the
cast error included) is forwarded with `next(err)` to the centralized
error middleware. -/
def getMoviesB (q : Query) (dbo : DbOutcome) (db : DB) : Response :=
  match dbo with
  | .fail e => (errorMiddlewareB e).1
  | .ok =>
    match findMovies (buildFilter q) db with
    | .error e => (errorMiddlewareB e).1
    | .ok ms => { status := 200, body := .records ms }

/-- The document `new Movie(req.body)` constructs once validation passed:
mongoose casts the year string with `Number` (validation guarantees it
parses) and the persistence layer assigns `newId`. -/
def mkMovie (newId : String) (p : Payload) : MovieRecord :=
  { id := newId
    title := toStr p.title
    director := toStr p.director
    releaseYear := (strictParseInt (toStr p.releaseYear)).getD 0
    genre := toStr p.genre
    image := p.image }

/-- Variant A create handler (lines 154-188).  On validation failure: 400
with the collected errors, nothing persisted.  Otherwise `movie.save()` is
awaited with no try/catch and variant A installs no error middleware, so a
rejected save produces no response at all: the result is `none`. -/
def createA (maxYear : Int) (newId : String) (dbo : DbOutcome) (p : Payload) (db : DB) :
    Option Response × DB :=
  let errs := createValidationA maxYear p
  if !errs.isEmpty then (some { status := 400, body := .errorsArr errs }, db)
  else
    match dbo with
    | .ok => (some { status := 201, body := .record (mkMovie newId p) }, db ++ [mkMovie newId p])
    | .fail _ => (none, db)

/-- Variant B create handler (lines 453-479): as variant A, but a rejected
save is forwarded with `next(err)` to the centralized error middleware. -/
def createB (maxYear : Int) (newId : String) (dbo : DbOutcome) (p : Payload) (db : DB) :
    Response × DB :=
  let errs := createValidationB maxYear p
  if !errs.isEmpty then ({ status := 400, body := .errorsArr errs }, db)
  else
    match dbo with
    | .ok => ({ status := 201, body := .record (mkMovie newId p) }, db ++ [mkMovie newId p])
    | .fail e => ((errorMiddlewareB e).1, db)

/-- Field replacement performed by `findByIdAndUpdate(id, body, {new:true})`:
the keys present in the body overwrite the stored document. -/
def applyUpdate (p : Payload) (m : MovieRecord) : MovieRecord :=
  { m with
    title := p.title.getD m.title
    director := p.director.getD m.director
    releaseYear := match p.releaseYear with
      | none => m.releaseYear
      | some s => (strictParseInt s).getD m.releaseYear
    genre := p.genre.getD m.genre
    image := match p.image with
      | none => m.image
      | some s => some s }

/-- Variant A update handler (lines 235-272): validation first (400 on
failure, persistence untouched); then `findByIdAndUpdate`, whose cast or
database failure is caught locally as 500; missing document is 404. -/
def updateA (maxYear : Int) (id : String) (dbo : DbOutcome) (p : Payload) (db : DB) :
    Response × DB :=
  let errs := updateValidationA maxYear p
  if !errs.isEmpty then ({ status := 400, body := .errorsArr errs }, db)
  else if !(isValidObjectId id) then ({ status := 500, body := .errObj "Server error" none }, db)
  else
    match dbo with
    | .fail _ => ({ status := 500, body := .errObj "Server error" none }, db)
    | .ok =>
      match findById id db with
      | none => ({ status := 404, body := .errObj "Movie not found" none }, db)
      | some m =>
        ({ status := 200, body := .record (applyUpdate p m) }, replaceById id (applyUpdate p m) db)

/-- Variant B update handler (lines 522-546): as variant A, but cast and
database failures are forwarded to the centralized error middleware. -/
def updateB (maxYear : Int) (id : String) (dbo : DbOutcome) (p : Payload) (db : DB) :
    Response × DB :=
  let errs := updateValidationB maxYear p
  if !errs.isEmpty then ({ status := 400, body := .errorsArr errs }, db)
  else if !(isValidObjectId id) then ((errorMiddlewareB (castError id)).1, db)
  else
    match dbo with
    | .fail e => ((errorMiddlewareB e).1, db)
    | .ok =>
      match findById id db with
      | none => ({ status := 404, body := .errObj "Movie not found" none }, db)
      | some m =>
        ({ status := 200, body := .record (applyUpdate p m) }, replaceById id (applyUpdate p m) db)

/-- Variant A delete handler (lines 296-304): `findByIdAndDelete`; any
caught failure (cast error included) answers 400 `Invalid ID`; a missing
document is 404; success removes the document and answers plain text. -/
def deleteA (id : String) (dbo : DbOutcome) (db : DB) : Response × DB :=
  if !(isValidObjectId id) then ({ status := 400, body := .text "Invalid ID" }, db)
  else
    match dbo with
    | .fail _ => ({ status := 400, body := .text "Invalid ID" }, db)
    | .ok =>
      match findById id db with
      | none => ({ status := 404, body := .text "Movie not found" }, db)
      | some _ => ({ status := 200, body := .text "Movie deleted" }, removeById id db)

/-- Variant B delete handler (lines 565-573): cast and database failures
are forwarded with `next(err)` to the centralized error middleware (which
answers 500); a missing document is a 404 JSON object; success removes the
document and answers a JSON confirmation. -/
def deleteB (id : String) (dbo : DbOutcome) (db : DB) : Response × DB :=
  if !(isValidObjectId id) then ((errorMiddlewareB (castError id)).1, db)
  else
    match dbo with
    | .fail e => ((errorMiddlewareB e).1, db)
    | .ok =>
      match findById id db with
      | none => ({ status := 404, body := .errObj "Movie not found" none }, db)
      | some _ => ({ status := 200, body := .msgObj "Movie deleted" }, removeById id db)

/-- An inbound request as the router sees it: method, path (the query
string is carried separately in `query`), parsed JSON body. -/
structure Request where
  method : String
  path : String
  query : Query
  payload : Payload
deriving DecidableEq, Repr

/-- The id segment when the path is `/api/movies/<seg>` with a nonempty
segment containing no further slash, as the express pattern
`/api/movies/:id` matches it. -/
def movieIdOf (path : String) : Option String :=
  match dropLead "/api/movies/".data path.data with
  | none => none
  | some rest =>
    if !rest.isEmpty && !rest.contains '/' then some (String.mk rest) else none

/-- Whether `app.use('/api-docs', ...)` matches the path: exactly
`/api-docs`, or any path below it. -/
def isApiDocsPath (path : String) : Bool :=
  path == "/api-docs" || startsWithList "/api-docs/".data path.data

/-- Variant B's trailing 404 middleware (lines 576-581): a JSON object
with an `error` field and a message naming the method and the url. -/
def notFoundB (rq : Request) : Response :=
  { status := 404
    body := .errObj "Not Found" (some ("Route " ++ rq.method ++ " " ++ rq.path ++ " not found")) }

/-- Whether some variant B route (registered before the 404 middleware)
matches the request: the swagger mount (any method), the home route, the
four API routes. -/
def matchedB (rq : Request) : Bool :=
  isApiDocsPath rq.path
  || (rq.method == "GET" && rq.path == "/")
  || (rq.method == "GET" && rq.path == "/api/movies")
  || (rq.method == "POST" && rq.path == "/api/movies")
  || (rq.method == "PUT" && (movieIdOf rq.path).isSome)
  || (rq.method == "DELETE" && (movieIdOf rq.path).isSome)

/-- Variant B's router: try the routes in registration order, fall through
to the 404 middleware.  The swagger mount is abstracted as a fixed text
response. -/
def dispatchB (maxYear : Int) (newId : String) (dbo : DbOutcome) (rq : Request) (db : DB) :
    Response × DB :=
  if isApiDocsPath rq.path then ({ status := 200, body := .text "Swagger UI" }, db)
  else if rq.method == "GET" && rq.path == "/" then
    ({ status := 200, body := .text "Welcome to the Movies Management API!" }, db)
  else if rq.method == "GET" && rq.path == "/api/movies" then
    (getMoviesB rq.query dbo db, db)
  else if rq.method == "POST" && rq.path == "/api/movies" then
    createB maxYear newId dbo rq.payload db
  else if rq.method == "PUT" && (movieIdOf rq.path).isSome then
    updateB maxYear ((movieIdOf rq.path).getD "") dbo rq.payload db
  else if rq.method == "DELETE" && (movieIdOf rq.path).isSome then
    deleteB ((movieIdOf rq.path).getD "") dbo db
  else (notFoundB rq, db)

/-! ### Helper lemmas about the validator chains -/

theorem notEmpty_iff (v : Option String) : notEmpty v = true ↔ toStr v ≠ "" := by
  simp [notEmpty]

theorem strictParseInt_empty : strictParseInt "" = none := rfl

theorem toStr_ne_empty_of_isIntRange {mn mx : Int} {v : Option String}
    (h : isIntRange mn mx v = true) : toStr v ≠ "" := by
  intro he
  rw [isIntRange, he, strictParseInt_empty] at h
  exact Bool.false_ne_true h

theorem toStr_ne_empty_of_isInList {v : Option String}
    (h : isInList genres v = true) : toStr v ≠ "" := by
  intro he
  rw [isInList, he] at h
  exact absurd h (by decide)

theorem isLengthMin_one_of_notEmpty {v : Option String} (h : notEmpty v = true) :
    isLengthMin 1 v = true := by
  rw [notEmpty_iff] at h
  rw [isLengthMin, decide_eq_true_iff]
  rcases hs : toStr v with ⟨l⟩
  cases l with
  | nil => exact absurd (by simp [hs]) h
  | cons c cs => simp [String.length]

theorem chainTitleA_title_none :
    chainTitleA none = [⟨"title", "Title is required"⟩,
      ⟨"title", "Title must be at least 1 character"⟩] := by decide

theorem chainTitleB_title_none :
    chainTitleB none = [⟨"title", "Title is required"⟩] := by decide

/-! ### C1: writes with a missing title -/

/-- C1.  A write payload missing `title` makes both variants of the create
and update operations answer 400 with a violation list naming `title`, and
leaves the database untouched, whatever the persistence oracle would have
done. -/
theorem c1_missing_title (maxYear : Int) (newId id : String) (dbo : DbOutcome)
    (p : Payload) (db : DB) (hp : p.title = none) :
    createA maxYear newId dbo p db
        = (some { status := 400, body := .errorsArr (createValidationA maxYear p) }, db)
    ∧ "title" ∈ fieldsOf (createValidationA maxYear p)
    ∧ createB maxYear newId dbo p db
        = ({ status := 400, body := .errorsArr (createValidationB maxYear p) }, db)
    ∧ "title" ∈ fieldsOf (createValidationB maxYear p)
    ∧ updateA maxYear id dbo p db
        = ({ status := 400, body := .errorsArr (updateValidationA maxYear p) }, db)
    ∧ "title" ∈ fieldsOf (updateValidationA maxYear p)
    ∧ updateB maxYear id dbo p db
        = ({ status := 400, body := .errorsArr (updateValidationB maxYear p) }, db)
    ∧ "title" ∈ fieldsOf (updateValidationB maxYear p) := by
  refine ⟨?_, ?_, ?_, ?_, ?_, ?_, ?_, ?_⟩ <;>
    simp [createA, createB, updateA, updateB, createValidationA, createValidationB,
      updateValidationA, updateValidationB, hp, chainTitleA_title_none,
      chainTitleB_title_none, fieldsOf]

/-- A concrete payload with no title. -/
def noTitleP : Payload :=
  { title := none, director := some "Villeneuve", releaseYear := some "2016"
    genre := some "Sci-Fi", image := none }

theorem c1_missing_title_witness :
    noTitleP.title = none
    ∧ "title" ∈ fieldsOf (createValidationA 2025 noTitleP)
    ∧ createB 2025 "aaaabbbbccccddddeeeeffff" .ok noTitleP []
        = ({ status := 400, body := .errorsArr (createValidationB 2025 noTitleP) }, []) := by
  have h := c1_missing_title 2025 "aaaabbbbccccddddeeeeffff" "aaaabbbbccccddddeeeeffff"
    .ok noTitleP [] rfl
  exact ⟨rfl, h.2.1, h.2.2.1⟩

/-! ### C10: the two validator rule chains are equivalent -/

theorem chainTitleA_eq_nil_iff (v : Option String) :
    chainTitleA v = [] ↔ notEmpty v = true := by
  cases h1 : notEmpty v with
  | false => simp [chainTitleA, h1]
  | true => simp [chainTitleA, h1, isLengthMin_one_of_notEmpty h1]

theorem chainTitleB_eq_nil_iff (v : Option String) :
    chainTitleB v = [] ↔ notEmpty v = true := by
  cases h1 : notEmpty v <;> simp [chainTitleB, h1]

theorem chainDirector_eq_nil_iff (v : Option String) :
    chainDirector v = [] ↔ notEmpty v = true := by
  cases h1 : notEmpty v <;> simp [chainDirector, h1]

theorem chainYearA_eq_nil_iff (maxYear : Int) (v : Option String) :
    chainYearA maxYear v = [] ↔ isIntRange 1888 maxYear v = true := by
  cases h2 : isIntRange 1888 maxYear v with
  | false => simp [chainYearA, h2]
  | true =>
    have h1 : notEmpty v = true := (notEmpty_iff v).mpr (toStr_ne_empty_of_isIntRange h2)
    simp [chainYearA, h1, h2]

theorem chainYearB_eq_nil_iff (maxYear : Int) (v : Option String) :
    chainYearB maxYear v = [] ↔ isIntRange 1888 maxYear v = true := by
  cases h2 : isIntRange 1888 maxYear v <;> simp [chainYearB, h2]

theorem chainGenreA_eq_nil_iff (v : Option String) :
    chainGenreA v = [] ↔ isInList genres v = true := by
  cases h2 : isInList genres v with
  | false => simp [chainGenreA, h2]
  | true =>
    have h1 : notEmpty v = true := (notEmpty_iff v).mpr (toStr_ne_empty_of_isInList h2)
    simp [chainGenreA, h1, h2]

theorem chainGenreB_eq_nil_iff (v : Option String) :
    chainGenreB v = [] ↔ isInList genres v = true := by
  cases h2 : isInList genres v <;> simp [chainGenreB, h2]

/-- C10.  The validation rule chains of the two variants accept and reject
exactly the same payloads, on create and on update: variant A's extra
`notEmpty` checks on releaseYear and genre and its `isLength({min:1})`
check on title never change the empty/nonempty status of the violation
list, because `isInt` and `isIn` already fail on a missing or empty value
and `notEmpty` already enforces length at least 1. -/
theorem c10_validator_chains_equivalent (maxYear : Int) (p : Payload) :
    (createValidationA maxYear p = [] ↔ createValidationB maxYear p = [])
    ∧ (updateValidationA maxYear p = [] ↔ updateValidationB maxYear p = []) := by
  constructor <;>
    simp [createValidationA, createValidationB, updateValidationA, updateValidationB,
      List.append_eq_nil, chainTitleA_eq_nil_iff, chainTitleB_eq_nil_iff,
      chainYearA_eq_nil_iff, chainYearB_eq_nil_iff, chainGenreA_eq_nil_iff,
      chainGenreB_eq_nil_iff]

/-! ### Which fields each chain can name -/

theorem mem_fieldsOf_chainTitleA {x : String} {v : Option String}
    (h : x ∈ fieldsOf (chainTitleA v)) : x = "title" := by
  cases h1 : notEmpty v <;> cases h2 : isLengthMin 1 v <;>
    simp_all [chainTitleA, fieldsOf]

theorem mem_fieldsOf_chainTitleB {x : String} {v : Option String}
    (h : x ∈ fieldsOf (chainTitleB v)) : x = "title" := by
  cases h1 : notEmpty v <;> simp_all [chainTitleB, fieldsOf]

theorem mem_fieldsOf_chainDirector {x : String} {v : Option String}
    (h : x ∈ fieldsOf (chainDirector v)) : x = "director" := by
  cases h1 : notEmpty v <;> simp_all [chainDirector, fieldsOf]

theorem mem_fieldsOf_chainYearA {x : String} {maxYear : Int} {v : Option String}
    (h : x ∈ fieldsOf (chainYearA maxYear v)) : x = "releaseYear" := by
  cases h1 : notEmpty v <;> cases h2 : isIntRange 1888 maxYear v <;>
    simp_all [chainYearA, fieldsOf]

theorem mem_fieldsOf_chainYearB {x : String} {maxYear : Int} {v : Option String}
    (h : x ∈ fieldsOf (chainYearB maxYear v)) : x = "releaseYear" := by
  cases h2 : isIntRange 1888 maxYear v <;> simp_all [chainYearB, fieldsOf]

theorem mem_fieldsOf_chainGenreA {x : String} {v : Option String}
    (h : x ∈ fieldsOf (chainGenreA v)) : x = "genre" := by
  cases h1 : notEmpty v <;> cases h2 : isInList genres v <;>
    simp_all [chainGenreA, fieldsOf]

theorem mem_fieldsOf_chainGenreB {x : String} {v : Option String}
    (h : x ∈ fieldsOf (chainGenreB v)) : x = "genre" := by
  cases h2 : isInList genres v <;> simp_all [chainGenreB, fieldsOf]

theorem mem_fieldsOf_chainImage {x : String} {v : Option String}
    (h : x ∈ fieldsOf (chainImage v)) : x = "image" := by
  cases v with
  | none => simp [chainImage, fieldsOf] at h
  | some s => cases h2 : isURL s <;> simp_all [chainImage, fieldsOf]

theorem year_mem_chainYearA_iff (maxYear : Int) (v : Option String) :
    "releaseYear" ∈ fieldsOf (chainYearA maxYear v)
      ↔ ¬(notEmpty v = true ∧ isIntRange 1888 maxYear v = true) := by
  cases h1 : notEmpty v <;> cases h2 : isIntRange 1888 maxYear v <;>
    simp [chainYearA, fieldsOf, h1, h2]

theorem year_mem_chainYearB_iff (maxYear : Int) (v : Option String) :
    "releaseYear" ∈ fieldsOf (chainYearB maxYear v)
      ↔ isIntRange 1888 maxYear v = false := by
  cases h2 : isIntRange 1888 maxYear v <;> simp [chainYearB, fieldsOf, h2]

theorem year_mem_createValidationA_iff (maxYear : Int) (p : Payload) :
    "releaseYear" ∈ fieldsOf (createValidationA maxYear p)
      ↔ "releaseYear" ∈ fieldsOf (chainYearA maxYear p.releaseYear) := by
  simp only [createValidationA, fieldsOf, List.map_append, List.mem_append]
  constructor
  · rintro ((((h | h) | h) | h) | h)
    · exact absurd (mem_fieldsOf_chainTitleA h) (by decide)
    · exact absurd (mem_fieldsOf_chainDirector h) (by decide)
    · exact h
    · exact absurd (mem_fieldsOf_chainGenreA h) (by decide)
    · exact absurd (mem_fieldsOf_chainImage h) (by decide)
  · intro h
    exact Or.inl (Or.inl (Or.inr h))

theorem year_mem_updateValidationA_iff (maxYear : Int) (p : Payload) :
    "releaseYear" ∈ fieldsOf (updateValidationA maxYear p)
      ↔ "releaseYear" ∈ fieldsOf (chainYearA maxYear p.releaseYear) := by
  simp only [updateValidationA, fieldsOf, List.map_append, List.mem_append]
  constructor
  · rintro ((((h | h) | h) | h) | h)
    · exact absurd (mem_fieldsOf_chainTitleA h) (by decide)
    · exact absurd (mem_fieldsOf_chainDirector h) (by decide)
    · exact h
    · exact absurd (mem_fieldsOf_chainGenreA h) (by decide)
    · exact absurd (mem_fieldsOf_chainImage h) (by decide)
  · intro h
    exact Or.inl (Or.inl (Or.inr h))

theorem year_mem_createValidationB_iff (maxYear : Int) (p : Payload) :
    "releaseYear" ∈ fieldsOf (createValidationB maxYear p)
      ↔ "releaseYear" ∈ fieldsOf (chainYearB maxYear p.releaseYear) := by
  simp only [createValidationB, fieldsOf, List.map_append, List.mem_append]
  constructor
  · rintro ((((h | h) | h) | h) | h)
    · exact absurd (mem_fieldsOf_chainTitleB h) (by decide)
    · exact absurd (mem_fieldsOf_chainDirector h) (by decide)
    · exact h
    · exact absurd (mem_fieldsOf_chainGenreB h) (by decide)
    · exact absurd (mem_fieldsOf_chainImage h) (by decide)
  · intro h
    exact Or.inl (Or.inl (Or.inr h))

theorem year_mem_updateValidationB_iff (maxYear : Int) (p : Payload) :
    "releaseYear" ∈ fieldsOf (updateValidationB maxYear p)
      ↔ "releaseYear" ∈ fieldsOf (chainYearB maxYear p.releaseYear) := by
  simp only [updateValidationB, fieldsOf, List.map_append, List.mem_append]
  constructor
  · rintro ((((h | h) | h) | h) | h)
    · exact absurd (mem_fieldsOf_chainTitleB h) (by decide)
    · exact absurd (mem_fieldsOf_chainDirector h) (by decide)
    · exact h
    · exact absurd (mem_fieldsOf_chainGenreB h) (by decide)
    · exact absurd (mem_fieldsOf_chainImage h) (by decide)
  · intro h
    exact Or.inl (Or.inl (Or.inr h))

/-! ### C3: the releaseYear range check and when the current year is read -/

/-- A valid payload whose releaseYear is 2026. -/
def p2026 : Payload :=
  { title := some "Dune Part Three", director := some "Villeneuve"
    releaseYear := some "2026", genre := some "Sci-Fi", image := none }

/-- C3 counterexample.  `new Date().getFullYear()` in the `isInt` options
runs when the routes are registered, not per request: the validators of a
server started during 2025 reject releaseYear 2026 in both variants, even
for a request made during calendar year 2026 (whose request-time current
year, 2026, the claim requires to be accepted as a boundary value); the
identical payload passes only when the routes were registered during 2026.
Acceptance thus depends on the registration-time year, refuting
request-time evaluation. -/
theorem c3_registration_year_counterexample :
    "releaseYear" ∈ fieldsOf (createValidationA 2025 p2026)
    ∧ "releaseYear" ∈ fieldsOf (createValidationB 2025 p2026)
    ∧ "releaseYear" ∈ fieldsOf (updateValidationA 2025 p2026)
    ∧ "releaseYear" ∈ fieldsOf (updateValidationB 2025 p2026)
    ∧ createValidationA 2026 p2026 = []
    ∧ createValidationB 2026 p2026 = [] := by decide

/-- C3 as amended.  With `maxYear` the calendar year captured when the
routes were registered, a payload whose releaseYear parses to the integer
`y` receives a releaseYear violation in each of the four validator chains
exactly when `y` lies outside `[1888, maxYear]`; in particular both
boundary values are accepted. -/
theorem c3_year_range (maxYear y : Int) (s : String) (p : Payload)
    (hs : strictParseInt s = some y) (hp : p.releaseYear = some s) :
    ("releaseYear" ∈ fieldsOf (createValidationA maxYear p) ↔ ¬(1888 ≤ y ∧ y ≤ maxYear))
    ∧ ("releaseYear" ∈ fieldsOf (updateValidationA maxYear p) ↔ ¬(1888 ≤ y ∧ y ≤ maxYear))
    ∧ ("releaseYear" ∈ fieldsOf (createValidationB maxYear p) ↔ ¬(1888 ≤ y ∧ y ≤ maxYear))
    ∧ ("releaseYear" ∈ fieldsOf (updateValidationB maxYear p) ↔ ¬(1888 ≤ y ∧ y ≤ maxYear)) := by
  have hne : notEmpty (some s) = true := by
    rw [notEmpty_iff]
    intro he
    rw [show toStr (some s) = s from rfl] at he
    rw [he, strictParseInt_empty] at hs
    cases hs
  have hir : isIntRange 1888 maxYear (some s) = (decide (1888 ≤ y) && decide (y ≤ maxYear)) := by
    simp [isIntRange, toStr, hs]
  refine ⟨?_, ?_, ?_, ?_⟩
  · rw [year_mem_createValidationA_iff, hp, year_mem_chainYearA_iff, hne, hir]
    simp [Bool.and_eq_true, decide_eq_true_iff]
  · rw [year_mem_updateValidationA_iff, hp, year_mem_chainYearA_iff, hne, hir]
    simp [Bool.and_eq_true, decide_eq_true_iff]
  · rw [year_mem_createValidationB_iff, hp, year_mem_chainYearB_iff, hir]
    simp [Bool.and_eq_true, decide_eq_true_iff]
  · rw [year_mem_updateValidationB_iff, hp, year_mem_chainYearB_iff, hir]
    simp [Bool.and_eq_true, decide_eq_true_iff]

/-- A payload whose releaseYear is the 1888 boundary. -/
def p1888 : Payload :=
  { title := some "Roundhay Garden Scene", director := some "Le Prince"
    releaseYear := some "1888", genre := some "Other", image := none }

theorem c3_year_range_witness :
    strictParseInt "1888" = some 1888
    ∧ p1888.releaseYear = some "1888"
    ∧ "releaseYear" ∉ fieldsOf (createValidationA 2024 p1888)
    ∧ "releaseYear" ∉ fieldsOf (createValidationB 2024 p1888) := by
  have h := c3_year_range 2024 1888 "1888" p1888 (by decide) rfl
  exact ⟨by decide, rfl, fun hm => h.1.mp hm (by decide), fun hm => h.2.2.1.mp hm (by decide)⟩

/-! ### C9: the image field is optional, but must be a URL when present -/

theorem image_mem_chainImage_iff (v : Option String) :
    "image" ∈ fieldsOf (chainImage v) ↔ ∃ s, v = some s ∧ isURL s = false := by
  cases v with
  | none => simp [chainImage, fieldsOf]
  | some s => cases h : isURL s <;> simp [chainImage, fieldsOf, h]

theorem image_mem_createValidationA_iff (maxYear : Int) (p : Payload) :
    "image" ∈ fieldsOf (createValidationA maxYear p)
      ↔ "image" ∈ fieldsOf (chainImage p.image) := by
  simp only [createValidationA, fieldsOf, List.map_append, List.mem_append]
  constructor
  · rintro ((((h | h) | h) | h) | h)
    · exact absurd (mem_fieldsOf_chainTitleA h) (by decide)
    · exact absurd (mem_fieldsOf_chainDirector h) (by decide)
    · exact absurd (mem_fieldsOf_chainYearA h) (by decide)
    · exact absurd (mem_fieldsOf_chainGenreA h) (by decide)
    · exact h
  · intro h
    exact Or.inr h

theorem image_mem_updateValidationA_iff (maxYear : Int) (p : Payload) :
    "image" ∈ fieldsOf (updateValidationA maxYear p)
      ↔ "image" ∈ fieldsOf (chainImage p.image) := by
  simp only [updateValidationA, fieldsOf, List.map_append, List.mem_append]
  constructor
  · rintro ((((h | h) | h) | h) | h)
    · exact absurd (mem_fieldsOf_chainTitleA h) (by decide)
    · exact absurd (mem_fieldsOf_chainDirector h) (by decide)
    · exact absurd (mem_fieldsOf_chainYearA h) (by decide)
    · exact absurd (mem_fieldsOf_chainGenreA h) (by decide)
    · exact h
  · intro h
    exact Or.inr h

theorem image_mem_createValidationB_iff (maxYear : Int) (p : Payload) :
    "image" ∈ fieldsOf (createValidationB maxYear p)
      ↔ "image" ∈ fieldsOf (chainImage p.image) := by
  simp only [createValidationB, fieldsOf, List.map_append, List.mem_append]
  constructor
  · rintro ((((h | h) | h) | h) | h)
    · exact absurd (mem_fieldsOf_chainTitleB h) (by decide)
    · exact absurd (mem_fieldsOf_chainDirector h) (by decide)
    · exact absurd (mem_fieldsOf_chainYearB h) (by decide)
    · exact absurd (mem_fieldsOf_chainGenreB h) (by decide)
    · exact h
  · intro h
    exact Or.inr h

theorem image_mem_updateValidationB_iff (maxYear : Int) (p : Payload) :
    "image" ∈ fieldsOf (updateValidationB maxYear p)
      ↔ "image" ∈ fieldsOf (chainImage p.image) := by
  simp only [updateValidationB, fieldsOf, List.map_append, List.mem_append]
  constructor
  · rintro ((((h | h) | h) | h) | h)
    · exact absurd (mem_fieldsOf_chainTitleB h) (by decide)
    · exact absurd (mem_fieldsOf_chainDirector h) (by decide)
    · exact absurd (mem_fieldsOf_chainYearB h) (by decide)
    · exact absurd (mem_fieldsOf_chainGenreB h) (by decide)
    · exact h
  · intro h
    exact Or.inr h

/-- C9.  In each of the four validator chains a violation naming `image`
occurs exactly when the field is present and fails the URL check: absence
of `image` is never a violation, and a present non-URL value always is
one. -/
theorem c9_image_optional_url (maxYear : Int) (p : Payload) :
    ("image" ∈ fieldsOf (createValidationA maxYear p)
      ↔ ∃ s, p.image = some s ∧ isURL s = false)
    ∧ ("image" ∈ fieldsOf (updateValidationA maxYear p)
      ↔ ∃ s, p.image = some s ∧ isURL s = false)
    ∧ ("image" ∈ fieldsOf (createValidationB maxYear p)
      ↔ ∃ s, p.image = some s ∧ isURL s = false)
    ∧ ("image" ∈ fieldsOf (updateValidationB maxYear p)
      ↔ ∃ s, p.image = some s ∧ isURL s = false) := by
  rw [image_mem_createValidationA_iff, image_mem_updateValidationA_iff,
    image_mem_createValidationB_iff, image_mem_updateValidationB_iff,
    image_mem_chainImage_iff]
  exact ⟨Iff.rfl, Iff.rfl, Iff.rfl, Iff.rfl⟩

/-! ### C4: a non-numeric releaseYear query parameter -/

/-- C4 as amended.  When the releaseYear query parameter is present,
nonempty and non-numeric, the filter is not excluded: `parseInt` yields
`NaN`, the built query carries a `NaN` year constraint, mongoose's Number
cast rejects it with a `CastError`, and the request fails with a 500 —
variant A through its local catch, variant B through the centralized
error middleware — instead of succeeding as if the filter were absent. -/
theorem c4_nan_year_filter (q : Query) (db : DB) (ys : String)
    (hq : q.releaseYear = some ys) (hne : ys ≠ "") (hp : jsParseInt ys = none) :
    (buildFilter q).releaseYear = some none
    ∧ findMovies (buildFilter q) db = .error nanCastError
    ∧ getMoviesA q .ok db = { status := 500, body := .errObj "Server Error" none }
    ∧ getMoviesB q .ok db
        = { status := 500, body := .errObj "Server Error" (some nanCastError.message) } := by
  have hbf : (buildFilter q).releaseYear = some none := by
    simp [buildFilter, truthy, hq, hne, toStr, hp]
  have hfm : findMovies (buildFilter q) db = .error nanCastError := by
    simp [findMovies, castFilter, hbf, Except.map]
  have hmsg : nanCastError.message ≠ "" := by decide
  exact ⟨hbf, hfm, by simp [getMoviesA, hfm],
    by simp [getMoviesB, hfm, errorMiddlewareB, hmsg]⟩

/-- A one-record database used by concrete counterexamples. -/
def duneDb : DB :=
  [{ id := "aaaabbbbccccddddeeeeffff", title := "Dune", director := "Villeneuve"
     releaseYear := 2021, genre := "Sci-Fi", image := none }]

/-- C4 counterexample.  The request `?releaseYear=abc` does not behave as
if the filter were absent (which would answer 200 with the record): the
`NaN` filter is built, its cast rejects, and both variants answer 500. -/
theorem c4_counterexample :
    (buildFilter { title := none, releaseYear := some "abc", genre := none }).releaseYear
        = some none
    ∧ getMoviesA { title := none, releaseYear := some "abc", genre := none } .ok duneDb
        = { status := 500, body := .errObj "Server Error" none }
    ∧ getMoviesA { title := none, releaseYear := none, genre := none } .ok duneDb
        = { status := 200, body := .records duneDb } := by decide

theorem c4_nan_year_filter_witness :
    jsParseInt "abc" = none
    ∧ findMovies (buildFilter { title := none, releaseYear := some "abc", genre := none }) duneDb
        = .error nanCastError
    ∧ getMoviesB { title := none, releaseYear := some "abc", genre := none } .ok duneDb
        = { status := 500, body := .errObj "Server Error" (some nanCastError.message) } := by
  have h := c4_nan_year_filter { title := none, releaseYear := some "abc", genre := none }
    duneDb "abc" rfl (by decide) rfl
  exact ⟨rfl, h.2.1, h.2.2.2⟩

/-! ### C2: conjunctive combination of the three query filters -/

theorem optMatch_true_iff (f : Option α) (p : α → Bool) :
    optMatch f p = true ↔ ∀ x, f = some x → p x = true := by
  cases f <;> simp [optMatch]

theorem matchesFilter_true_iff (f : CastFilter) (m : MovieRecord) :
    matchesFilter f m = true ↔
      ((∀ pat, f.title = some pat → jsRegexTestCI pat m.title = true)
      ∧ (∀ n, f.releaseYear = some n → m.releaseYear = n)
      ∧ (∀ g, f.genre = some g → m.genre = g)) := by
  rw [matchesFilter, Bool.and_eq_true, Bool.and_eq_true, and_assoc]
  refine and_congr (optMatch_true_iff ..) (and_congr ?_ ?_)
  · rw [optMatch_true_iff]
    refine forall_congr' fun n => imp_congr Iff.rfl ?_
    simp [beq_iff_eq]
  · rw [optMatch_true_iff]
    refine forall_congr' fun g => imp_congr Iff.rfl ?_
    simp [beq_iff_eq]

theorem matchHere_eq_startsWith (pd : List Char) (hd : pd.contains '.' = false)
    (cs : List Char) : matchHere pd cs = startsWithList pd cs := by
  induction pd generalizing cs with
  | nil => cases cs <;> simp [matchHere, startsWithList, dropLead]
  | cons p ps ih =>
    simp only [List.contains_cons, Bool.or_eq_false_iff] at hd
    cases cs with
    | nil => simp [matchHere, startsWithList, dropLead]
    | cons c cs' =>
      have hpdot : (p == '.') = false := by
        have := hd.1
        simp only [beq_eq_false_iff_ne] at this ⊢
        exact fun he => this he.symm
      rw [matchHere, startsWithList, dropLead, tokenMatches, if_neg (by simp [hpdot])]
      by_cases hpc : (p == c) = true
      · rw [if_pos hpc, hpc, Bool.true_and, ih hd.2, startsWithList]
      · rw [Bool.not_eq_true] at hpc
        rw [if_neg (by simp [hpc]), hpc, Bool.false_and]
        rfl

/-- On patterns whose case-folded form has no `.` wildcard (pure
literals), the regex test is exactly case-insensitive substring
containment. -/
theorem jsRegexTestCI_literal (pat s : String)
    (h : (foldCase pat).contains '.' = false) :
    jsRegexTestCI pat s = hasSubList (foldCase pat) (foldCase s) := by
  rw [jsRegexTestCI]
  generalize foldCase pat = pd at h
  induction foldCase s with
  | nil => rw [searchFrom, hasSubList]
  | cons c cs ih =>
    rw [searchFrom, hasSubList, ih, matchHere_eq_startsWith pd h]

/-- The mongoose cast of the filter built from a query whose releaseYear
parameter, when present and nonempty, is numeric: casting succeeds, the
title and genre constraints pass through, and the year constraint is
present exactly for the parsed values. -/
theorem castFilter_ok_of_numericYear (q : Query)
    (hy : ∀ ys, q.releaseYear = some ys → ys ≠ "" → jsParseInt ys ≠ none) :
    ∃ cf, castFilter (buildFilter q) = .ok cf
      ∧ cf.title = (if truthy q.title then some (toStr q.title) else none)
      ∧ cf.genre = (if truthy q.genre then some (toStr q.genre) else none)
      ∧ ∀ n : Int, cf.releaseYear = some n ↔
          (∃ ys, q.releaseYear = some ys ∧ ys ≠ "" ∧ jsParseInt ys = some n) := by
  rcases hqy : q.releaseYear with _ | ys
  · refine ⟨{ title := if truthy q.title then some (toStr q.title) else none
              releaseYear := none
              genre := if truthy q.genre then some (toStr q.genre) else none },
      ?_, rfl, rfl, ?_⟩
    · simp [castFilter, buildFilter, truthy, hqy]
    · intro n
      simp
  · by_cases hne : ys = ""
    · refine ⟨{ title := if truthy q.title then some (toStr q.title) else none
                releaseYear := none
                genre := if truthy q.genre then some (toStr q.genre) else none },
        ?_, rfl, rfl, ?_⟩
      · simp [castFilter, buildFilter, truthy, hqy, hne]
      · intro n
        simp [hne]
    · have hyn := hy ys hqy hne
      rcases hn : jsParseInt ys with _ | n
      · exact absurd hn hyn
      · refine ⟨{ title := if truthy q.title then some (toStr q.title) else none
                  releaseYear := some n
                  genre := if truthy q.genre then some (toStr q.genre) else none },
          ?_, rfl, rfl, ?_⟩
        · simp [castFilter, buildFilter, truthy, hqy, hne, toStr, hn]
        · intro k
          constructor
          · intro hk
            exact ⟨ys, rfl, hne, by rw [hn]; exact hk⟩
          · rintro ⟨ys', h1, h2, h3⟩
            injection h1 with h1'
            subst h1'
            rw [hn] at h3
            exact h3

/-- C2 counterexample.  The title parameter is a regular expression, not a
substring: the request `?title=.` lists the stored `Dune` although `.` is
not a substring of its title; and a request with a present non-numeric
releaseYear does not filter at all — its cast fails and the response is a
500, not a conjunctively filtered record list. -/
theorem c2_counterexample :
    jsRegexTestCI "." "Dune" = true
    ∧ hasSubList (foldCase ".") (foldCase "Dune") = false
    ∧ getMoviesA { title := some ".", releaseYear := none, genre := none } .ok duneDb
        = { status := 200, body := .records duneDb }
    ∧ getMoviesB { title := none, releaseYear := some "abc", genre := none } .ok duneDb
        = { status := 500, body := .errObj "Server Error" (some nanCastError.message) } := by
  decide

/-- C2 as amended.  For list requests whose title parameter (if present)
is in the literal-and-wildcard pattern subset and whose releaseYear
parameter (if present and nonempty) is numeric, the query succeeds in both
variants with exactly the records satisfying every present nonempty
parameter conjunctively: title by the case-insensitive regex test,
releaseYear by exact integer equality, genre by exact string equality; an
absent or empty parameter imposes nothing, and the parameterless request
returns the whole collection. -/
theorem c2_filter_semantics (db : DB) (q : Query)
    (_ht : ∀ t, q.title = some t → simplePattern t = true)
    (hy : ∀ ys, q.releaseYear = some ys → ys ≠ "" → jsParseInt ys ≠ none) :
    findMovies (buildFilter { title := none, releaseYear := none, genre := none }) db = .ok db
    ∧ ∃ ms, findMovies (buildFilter q) db = .ok ms
      ∧ getMoviesA q .ok db = { status := 200, body := .records ms }
      ∧ getMoviesB q .ok db = { status := 200, body := .records ms }
      ∧ ∀ m : MovieRecord, m ∈ ms ↔
          (m ∈ db
          ∧ (∀ t, q.title = some t → t ≠ "" → jsRegexTestCI t m.title = true)
          ∧ (∀ ys, q.releaseYear = some ys → ys ≠ "" → jsParseInt ys = some m.releaseYear)
          ∧ (∀ g, q.genre = some g → g ≠ "" → m.genre = g)) := by
  constructor
  · have hmf : matchesFilter { title := none, releaseYear := none, genre := none }
        = fun _ => true := funext fun m => rfl
    have h0 : findMovies (buildFilter { title := none, releaseYear := none, genre := none }) db
        = .ok (db.filter (matchesFilter { title := none, releaseYear := none, genre := none })) :=
      rfl
    rw [h0, hmf, List.filter_true]
  · obtain ⟨cf, hcf, hct, hcg, hcy⟩ := castFilter_ok_of_numericYear q hy
    have hfm : findMovies (buildFilter q) db = .ok (db.filter (matchesFilter cf)) := by
      rw [findMovies, hcf]
      rfl
    refine ⟨db.filter (matchesFilter cf), hfm, by simp [getMoviesA, hfm],
      by simp [getMoviesB, hfm], ?_⟩
    intro m
    rw [List.mem_filter]
    refine and_congr_right fun _ => ?_
    rw [matchesFilter_true_iff]
    refine and_congr ?_ (and_congr ?_ ?_)
    · rw [hct]
      rcases q.title with _ | t
      · simp [truthy]
      · by_cases ht' : t = "" <;> simp [truthy, ht', toStr]
    · constructor
      · intro H ys hys hne'
        have hpn := hy ys hys hne'
        rcases hn : jsParseInt ys with _ | n
        · exact absurd hn hpn
        · have hcfn : cf.releaseYear = some n := (hcy n).mpr ⟨ys, hys, hne', hn⟩
          rw [H n hcfn]
      · intro K n hn'
        obtain ⟨ys, hys, hne', hpn⟩ := (hcy n).mp hn'
        have hK := K ys hys hne'
        rw [hpn] at hK
        injection hK with hK'
        exact hK'.symm
    · rw [hcg]
      rcases q.genre with _ | g
      · simp [truthy]
      · by_cases hg' : g = "" <;> simp [truthy, hg', toStr]

/-- The spec's own two-Dune example database. -/
def twoDuneDb : DB :=
  [{ id := "aaaabbbbccccddddeeeeffff", title := "Dune", director := "Villeneuve"
     releaseYear := 2021, genre := "Sci-Fi", image := none },
   { id := "000011112222333344445555", title := "Dune", director := "Lynch"
     releaseYear := 1984, genre := "Sci-Fi", image := none }]

/-- The query `?title=dune&releaseYear=1984`. -/
def duneQuery : Query :=
  { title := some "dune", releaseYear := some "1984", genre := none }

theorem c2_filter_semantics_witness :
    simplePattern "dune" = true
    ∧ (∃ ms, findMovies (buildFilter duneQuery) twoDuneDb = .ok ms
        ∧ getMoviesA duneQuery .ok twoDuneDb = { status := 200, body := .records ms })
    ∧ findMovies (buildFilter { title := none, releaseYear := none, genre := none }) twoDuneDb
        = .ok twoDuneDb := by
  have h := c2_filter_semantics twoDuneDb duneQuery
    (by intro t hts; simp [duneQuery] at hts; subst hts; decide)
    (by intro ys hys hne; simp [duneQuery] at hys; subst hys; decide)
  obtain ⟨h1, ms, h2, h3, _h4, _h5⟩ := h
  exact ⟨by decide, ⟨ms, h2, h3⟩, h1⟩

/-! ### C5: deleting the same id twice -/

theorem mem_removeById_iff (id : String) (db : DB)
    (hu : (db.map MovieRecord.id).Nodup) (m : MovieRecord) :
    m ∈ removeById id db ↔ (m ∈ db ∧ m.id ≠ id) := by
  induction db with
  | nil => simp [removeById]
  | cons a rest ih =>
    rw [List.map_cons, List.nodup_cons] at hu
    obtain ⟨ha, hrest⟩ := hu
    by_cases hid : a.id = id
    · rw [removeById, if_pos (by simp [hid])]
      constructor
      · intro hm
        refine ⟨List.mem_cons_of_mem a hm, fun hmid => ?_⟩
        exact ha (List.mem_map.mpr ⟨m, hm, by rw [hmid, hid]⟩)
      · rintro ⟨hm, hmid⟩
        rcases List.mem_cons.mp hm with rfl | hm'
        · exact absurd hid hmid
        · exact hm'
    · rw [removeById, if_neg (by simp [hid])]
      constructor
      · intro hm
        rcases List.mem_cons.mp hm with rfl | hm'
        · exact ⟨List.mem_cons_self .., hid⟩
        · obtain ⟨h1, h2⟩ := (ih hrest).mp hm'
          exact ⟨List.mem_cons_of_mem a h1, h2⟩
      · rintro ⟨hm, hmid⟩
        rcases List.mem_cons.mp hm with rfl | hm'
        · exact List.mem_cons_self ..
        · exact List.mem_cons_of_mem a ((ih hrest).mpr ⟨hm', hmid⟩)

/-- C5.  Over a database with unique ids containing a record with the
target id (well-cast), both variants of the delete operation answer 200
the first time, remove exactly that record (every other record survives,
every record with that id is gone), and answer 404 when the same delete is
repeated on the resulting state. -/
theorem c5_delete_idempotence (id : String) (db : DB)
    (hv : isValidObjectId id = true)
    (hu : (db.map MovieRecord.id).Nodup)
    (hm : ∃ m ∈ db, m.id = id) :
    (deleteA id .ok db).1.status = 200
    ∧ (deleteA id .ok db).2 = removeById id db
    ∧ (deleteB id .ok db).1.status = 200
    ∧ (deleteB id .ok db).2 = removeById id db
    ∧ (∀ m, m ∈ removeById id db ↔ (m ∈ db ∧ m.id ≠ id))
    ∧ (deleteA id .ok (removeById id db)).1.status = 404
    ∧ (deleteB id .ok (removeById id db)).1.status = 404 := by
  obtain ⟨m0, hm0, hid0⟩ := hm
  have hfind : ∃ mr, findById id db = some mr := by
    have hs : (db.find? fun m => m.id == id).isSome :=
      List.find?_isSome.mpr ⟨m0, hm0, by simp [hid0]⟩
    exact Option.isSome_iff_exists.mp hs
  obtain ⟨mr, hmr⟩ := hfind
  have hmem := mem_removeById_iff id db hu
  have hfind2 : findById id (removeById id db) = none := by
    rw [findById, List.find?_eq_none]
    intro x hx
    simp only [beq_iff_eq]
    exact ((hmem x).mp hx).2
  refine ⟨?_, ?_, ?_, ?_, hmem, ?_, ?_⟩ <;>
    simp [deleteA, deleteB, hv, hmr, hfind2]

/-- A valid 24-hex-character id and the matching one-record database. -/
def cId : String := "cccccccccccccccccccccccc"

def cDb : DB :=
  [{ id := cId, title := "Heat", director := "Mann", releaseYear := 1995
     genre := "Action", image := none }]

theorem c5_delete_idempotence_witness :
    isValidObjectId cId = true
    ∧ (cDb.map MovieRecord.id).Nodup
    ∧ (deleteA cId .ok cDb).1.status = 200
    ∧ (deleteB cId .ok (removeById cId cDb)).1.status = 404 := by
  have h := c5_delete_idempotence cId cDb (by decide) (by decide)
    ⟨cDb.head (by decide), by decide, by decide⟩
  exact ⟨by decide, by decide, h.1, h.2.2.2.2.2.2⟩

/-! ### C6: a malformed id on delete -/

/-- C6 counterexample.  For the malformed id `abc`, variant A answers 400
but variant B answers 500 (the cast error reaches the centralized error
middleware), not the 404 the claim attributes to one of the variants. -/
theorem c6_counterexample :
    (deleteA "abc" .ok duneDb).1.status = 400
    ∧ (deleteB "abc" .ok duneDb).1.status = 500
    ∧ (deleteB "abc" .ok duneDb).1.status ≠ 404
    ∧ (deleteB "abc" .ok duneDb).2 = duneDb := by decide

/-- C6 as amended.  A malformed id makes variant A's delete answer 400 and
variant B's delete answer 500 (via the centralized error middleware);
neither variant mutates the database, and neither produces the 404
"not found" outcome. -/
theorem c6_malformed_id (id : String) (dbo : DbOutcome) (db : DB)
    (h : isValidObjectId id = false) :
    (deleteA id dbo db).1.status = 400
    ∧ (deleteA id dbo db).2 = db
    ∧ (deleteB id dbo db).1.status = 500
    ∧ (deleteB id dbo db).2 = db
    ∧ (deleteA id dbo db).1.status ≠ 404
    ∧ (deleteB id dbo db).1.status ≠ 404 := by
  refine ⟨?_, ?_, ?_, ?_, ?_, ?_⟩ <;> simp [deleteA, deleteB, errorMiddlewareB, h]

theorem c6_malformed_id_witness :
    isValidObjectId "abc" = false
    ∧ (deleteA "abc" (.fail ⟨"x", "y"⟩) duneDb).1.status = 400
    ∧ (deleteB "abc" (.fail ⟨"x", "y"⟩) duneDb).1.status = 500 := by
  have h := c6_malformed_id "abc" (.fail ⟨"x", "y"⟩) duneDb (by decide)
  exact ⟨by decide, h.1, h.2.2.1⟩

/-! ### C7: central conversion of handler errors -/

/-- A valid payload used by concrete create scenarios. -/
def validP : Payload :=
  { title := some "Arrival", director := some "Villeneuve"
    releaseYear := some "2016", genre := some "Sci-Fi", image := none }

/-- C7 counterexample.  Variant A's create awaits `movie.save()` with no
try/catch and variant A installs no error middleware, so a persistence
failure on a valid payload produces no response at all (in particular no
structured 500 echoing the error message); nothing is persisted either. -/
theorem c7_counterexample :
    createValidationA 2025 validP = []
    ∧ (createA 2025 "aaaabbbbccccddddeeeeffff" (.fail ⟨"db down", "STACKTRACE"⟩) validP []).1
        = none
    ∧ (createA 2025 "aaaabbbbccccddddeeeeffff" (.fail ⟨"db down", "STACKTRACE"⟩) validP []).2
        = [] := by decide

/-- C7 as amended, for variant B.  Every error a variant B route handler
forwards — a persistence failure during create (valid payload), list,
update (valid payload, well-cast id) or delete (well-cast id) — reaches
the centralized error middleware, which answers a structured 500 whose
body carries the error's message and not its stack: the stack appears
only in the appended log line, and the database is left untouched. -/
theorem c7_central_error_variantB (e : JsError) (maxYear : Int) (newId id : String)
    (p : Payload) (db : DB) (q : Query)
    (he : e.message ≠ "")
    (hpc : createValidationB maxYear p = [])
    (hpu : updateValidationB maxYear p = [])
    (hv : isValidObjectId id = true) :
    (errorMiddlewareB e).1 = { status := 500, body := .errObj "Server Error" (some e.message) }
    ∧ (errorMiddlewareB e).2 = "ERROR: " ++ e.stack
    ∧ createB maxYear newId (.fail e) p db
        = ({ status := 500, body := .errObj "Server Error" (some e.message) }, db)
    ∧ getMoviesB q (.fail e) db
        = { status := 500, body := .errObj "Server Error" (some e.message) }
    ∧ updateB maxYear id (.fail e) p db
        = ({ status := 500, body := .errObj "Server Error" (some e.message) }, db)
    ∧ deleteB id (.fail e) db
        = ({ status := 500, body := .errObj "Server Error" (some e.message) }, db) := by
  have hm : (if e.message == "" then "Something went wrong" else e.message) = e.message := by
    simp [he]
  refine ⟨?_, rfl, ?_, ?_, ?_, ?_⟩ <;>
    simp [errorMiddlewareB, createB, getMoviesB, updateB, deleteB, hpc, hpu, hv, hm, he]

theorem c7_central_error_variantB_witness :
    createValidationB 2025 validP = []
    ∧ createB 2025 "aaaabbbbccccddddeeeeffff" (.fail ⟨"db down", "STACKTRACE"⟩) validP cDb
        = ({ status := 500, body := .errObj "Server Error" (some "db down") }, cDb)
    ∧ deleteB cId (.fail ⟨"db down", "STACKTRACE"⟩) cDb
        = ({ status := 500, body := .errObj "Server Error" (some "db down") }, cDb) := by
  have h := c7_central_error_variantB ⟨"db down", "STACKTRACE"⟩ 2025
    "aaaabbbbccccddddeeeeffff" cId validP cDb { title := none, releaseYear := none, genre := none }
    (by decide) (by decide) (by decide) (by decide)
  exact ⟨by decide, by rw [h.2.2.1], by rw [h.2.2.2.2.2]⟩

/-! ### C8: unmatched requests get a structured 404 -/

/-- C8.  Any request no variant B route matches falls through to the
trailing middleware, which answers a 404 JSON object whose `error` field
is `Not Found` and whose message interpolates the request's method and
path (both occur in it as substrings); the database is untouched. -/
theorem c8_unmatched_404 (maxYear : Int) (newId : String) (dbo : DbOutcome) (rq : Request)
    (db : DB) (h : matchedB rq = false) :
    dispatchB maxYear newId dbo rq db
      = ({ status := 404
           body := .errObj "Not Found"
             (some ("Route " ++ rq.method ++ " " ++ rq.path ++ " not found")) }, db)
    ∧ (∃ a b, "Route " ++ rq.method ++ " " ++ rq.path ++ " not found" = a ++ rq.method ++ b)
    ∧ (∃ a b, "Route " ++ rq.method ++ " " ++ rq.path ++ " not found" = a ++ rq.path ++ b) := by
  rw [matchedB] at h
  simp only [Bool.or_eq_false_iff] at h
  obtain ⟨⟨⟨⟨⟨h1, h2⟩, h3⟩, h4⟩, h5⟩, h6⟩ := h
  refine ⟨?_, ⟨"Route ", " " ++ rq.path ++ " not found", ?_⟩,
    ⟨"Route " ++ rq.method ++ " ", " not found", ?_⟩⟩
  · simp [dispatchB, notFoundB, h1, h2, h3, h4, h5, h6]
  · simp [String.append_assoc]
  · simp [String.append_assoc]

/-- An unmatched concrete request: no route accepts the PATCH method. -/
def rqPatch : Request :=
  { method := "PATCH", path := "/api/movies/x"
    query := { title := none, releaseYear := none, genre := none }
    payload := { title := none, director := none, releaseYear := none
                 genre := none, image := none } }

theorem c8_unmatched_404_witness :
    matchedB rqPatch = false
    ∧ dispatchB 2025 "aaaabbbbccccddddeeeeffff" .ok rqPatch duneDb
        = ({ status := 404
             body := .errObj "Not Found" (some "Route PATCH /api/movies/x not found") }, duneDb) := by
  have h := c8_unmatched_404 2025 "aaaabbbbccccddddeeeeffff" .ok rqPatch duneDb (by decide)
  refine ⟨by decide, ?_⟩
  rw [h.1]
  decide

end MovieMgmt
